import Mathlib

/-!
Verification of the retail-transaction analysis pipeline and the library
lending tracker.  The tabular program is embedded shallowly: a dataframe is a
list of rows, a null cell is `none`, numeric cells are rationals, and each
pandas operation used by the program (drop_duplicates, fillna, median,
groupby/agg, value_counts, idxmax, Counter/nlargest) is translated to an
executable Lean function with the same semantics.  The library script's
global dictionaries become association lists inside an explicit state record.
-/

/-- A transaction row of the retail dataset (section 3 of the spec).  Each
column that can hold a null in the CSV is an `Option`; the date column is a
day index (the reference run always parses it, and the derived calendar
columns Year/Month/Month_Name/DayOfWeek/Week are functions of it, so they
never introduce nulls and do not affect full-row equality). -/
structure Row where
  customerName     : Option String
  customerCategory : Option String
  city             : Option String
  storeType        : Option String
  date             : Nat
  totalCost        : Option ℚ
  totalItems       : Option ℚ
  product          : Option String
  paymentMethod    : Option String
  discountApplied  : Option String
  promotion        : Option String
  season           : Option String
deriving DecidableEq, Repr

/-- Result of the Loader stage: the cleaned rows and the reported number of
removed duplicates. -/
structure LoadResult where
  cleaned    : List Row
  duplicates : Nat
deriving DecidableEq, Repr

/-- Keep-first deduplication, accumulating the set of rows already kept:
this is the semantics of `df.drop_duplicates()` (pandas keeps the first
occurrence of each full-row value). -/
def dropDupAux {α : Type} [DecidableEq α] (seen : List α) : List α → List α
  | [] => []
  | r :: rs => if r ∈ seen then dropDupAux seen rs else r :: dropDupAux (r :: seen) rs

/-- `df.drop_duplicates()`: remove every row equal (in all fields) to an
earlier row. -/
def dropDuplicates {α : Type} [DecidableEq α] (l : List α) : List α :=
  dropDupAux [] l

/-- The median of a list of rationals with pandas semantics: sort ascending,
take the middle element for odd length, the average of the two middle
elements for even length, and no value for an empty list (pandas returns
NaN there, modelled as `none`). -/
def median (l : List ℚ) : Option ℚ :=
  let s := List.insertionSort (· ≤ ·) l
  let n := s.length
  if n = 0 then none
  else if n % 2 = 1 then some (s.getD (n / 2) 0)
  else some ((s.getD (n / 2 - 1) 0 + s.getD (n / 2) 0) / 2)

/-- `fillna('Unknown')` on one categorical cell. -/
def fillCat (o : Option String) : Option String :=
  some (o.getD "Unknown")

/-- `fillna(m)` on one numeric cell: a present value is kept, a null becomes
`m` (and remains null when `m` is itself null, as `fillna(NaN)` does). -/
def fillNum (o : Option ℚ) (m : Option ℚ) : Option ℚ :=
  match o with
  | some v => some v
  | none => m

/-- One iteration of the source's per-column loop
`if df[col].isnull().sum() > 0: df[col].fillna(...)`: the column is rewritten
only when it currently contains a null. -/
def fillCol {α : Type} (hasNull : α → Bool) (fill : α → α) (rows : List α) : List α :=
  if rows.any hasNull then rows.map fill else rows

def fillCustomerName (r : Row) : Row := { r with customerName := fillCat r.customerName }
def fillCustomerCategory (r : Row) : Row := { r with customerCategory := fillCat r.customerCategory }
def fillCity (r : Row) : Row := { r with city := fillCat r.city }
def fillStoreType (r : Row) : Row := { r with storeType := fillCat r.storeType }
def fillProduct (r : Row) : Row := { r with product := fillCat r.product }
def fillPaymentMethod (r : Row) : Row := { r with paymentMethod := fillCat r.paymentMethod }
def fillDiscountApplied (r : Row) : Row := { r with discountApplied := fillCat r.discountApplied }
def fillPromotion (r : Row) : Row := { r with promotion := fillCat r.promotion }
def fillSeason (r : Row) : Row := { r with season := fillCat r.season }

/-- The categorical half of the missing-value loop (source lines 98-101):
each object-dtype column with nulls is filled with the sentinel "Unknown",
in dataframe column order. -/
def fillCategoricals (rows : List Row) : List Row :=
  fillCol (fun r => r.season.isNone) fillSeason
    (fillCol (fun r => r.promotion.isNone) fillPromotion
      (fillCol (fun r => r.discountApplied.isNone) fillDiscountApplied
        (fillCol (fun r => r.paymentMethod.isNone) fillPaymentMethod
          (fillCol (fun r => r.product.isNone) fillProduct
            (fillCol (fun r => r.storeType.isNone) fillStoreType
              (fillCol (fun r => r.city.isNone) fillCity
                (fillCol (fun r => r.customerCategory.isNone) fillCustomerCategory
                  (fillCol (fun r => r.customerName.isNone) fillCustomerName rows))))))))

/-- The Total_Cost iteration of the numeric missing-value loop (source lines
103-106): fill nulls with the column's median over its current non-null
values. -/
def fillTotalCost (rows : List Row) : List Row :=
  fillCol (fun r => r.totalCost.isNone)
    (fun r => { r with totalCost := fillNum r.totalCost (median (rows.filterMap Row.totalCost)) }) rows

/-- The Total_Items iteration of the numeric missing-value loop. -/
def fillTotalItems (rows : List Row) : List Row :=
  fillCol (fun r => r.totalItems.isNone)
    (fun r => { r with totalItems := fillNum r.totalItems (median (rows.filterMap Row.totalItems)) }) rows

/-- The missing-value handling of `load_and_prepare_data` (source lines
97-106): the categorical columns first, then the numeric columns. -/
def handleMissing (rows : List Row) : List Row :=
  fillTotalItems (fillTotalCost (fillCategoricals rows))

/-- The pointwise effect of the categorical fills on one row. -/
def catFill (r : Row) : Row :=
  { r with
    customerName := fillCat r.customerName
    customerCategory := fillCat r.customerCategory
    city := fillCat r.city
    storeType := fillCat r.storeType
    product := fillCat r.product
    paymentMethod := fillCat r.paymentMethod
    discountApplied := fillCat r.discountApplied
    promotion := fillCat r.promotion
    season := fillCat r.season }

/-- The Loader (`load_and_prepare_data`, source lines 90-112): count rows,
drop full-row duplicates, report the difference as the duplicate count, and
only then impute missing values. -/
def load_and_prepare_data (rows : List Row) : LoadResult :=
  let initial_rows := rows.length
  let dd := dropDuplicates rows
  let duplicates := initial_rows - dd.length
  let cleaned := handleMissing dd
  { cleaned := cleaned, duplicates := duplicates }

/-- Pointwise description of what imputation does to a single row once the
two column medians are fixed: categorical nulls become "Unknown", numeric
nulls become the corresponding median. -/
def imputeRow (costMed itemsMed : Option ℚ) (r : Row) : Row :=
  { r with
    customerName := fillCat r.customerName
    customerCategory := fillCat r.customerCategory
    city := fillCat r.city
    storeType := fillCat r.storeType
    product := fillCat r.product
    paymentMethod := fillCat r.paymentMethod
    discountApplied := fillCat r.discountApplied
    promotion := fillCat r.promotion
    season := fillCat r.season
    totalCost := fillNum r.totalCost costMed
    totalItems := fillNum r.totalItems itemsMed }

/-- Modelled from the spec's words for claim C5: walking the rows from the
front, a row is removed exactly when a row equal in all fields precedes it;
`seenBefore` is the list of rows already walked past. -/
def specKeepFirst {α : Type} [DecidableEq α] (seenBefore : List α) : List α → List α
  | [] => []
  | r :: rs =>
      if r ∈ seenBefore then specKeepFirst (seenBefore ++ [r]) rs
      else r :: specKeepFirst (seenBefore ++ [r]) rs

/-- Modelled from the spec's words for claim C5: deduplication keeps a row
iff no equal row precedes it. -/
def specDedup {α : Type} [DecidableEq α] (l : List α) : List α :=
  specKeepFirst [] l

/-- Modelled from the spec's words for claim C1: a loader in which the
missing-value replacements take effect before the duplicate count is
computed from the row counts. -/
def loaderImputeFirst (rows : List Row) : LoadResult :=
  let initial_rows := rows.length
  let imputed := handleMissing rows
  let dd := dropDuplicates imputed
  { cleaned := dd, duplicates := initial_rows - dd.length }

/-- A fully populated sample row used by concrete witnesses. -/
def exRowA : Row :=
  { customerName := some "Amit", customerCategory := some "Student",
    city := some "Pune", storeType := some "Supermarket", date := 7,
    totalCost := some 10, totalItems := some 1, product := some "Apple",
    paymentMethod := some "Cash", discountApplied := some "Yes",
    promotion := some "BOGO", season := some "Winter" }

/-- The sample row with a null total cost. -/
def exRowB : Row := { exRowA with totalCost := none }

/-- Counterexample table for claim C1: two rows that differ only in that the
second has a null cost; the cost median of the first is the value of the
first, so imputing before deduplication would merge them. -/
def c1Table : List Row := [exRowA, exRowB]

/-- Counterexample table for claim C2: its only row has a null total cost,
so the cost column is entirely null and its median is undefined. -/
def c2Table : List Row := [exRowB]

/-- No categorical or numeric cell of the row is null (the Loader-stage
invariant of spec section 3). -/
def rowNoNulls (r : Row) : Bool :=
  r.customerName.isSome && r.customerCategory.isSome && r.city.isSome &&
  r.storeType.isSome && r.product.isSome && r.paymentMethod.isSome &&
  r.discountApplied.isSome && r.promotion.isSome && r.season.isSome &&
  r.totalCost.isSome && r.totalItems.isSome

/-- No categorical or numeric column of the dataset contains a null. -/
def noNulls (rows : List Row) : Bool :=
  rows.all rowNoNulls

/-- `pd.Series.value_counts()` (dropna) restricted to what the program uses:
one entry per distinct value, carrying the number of occurrences, sorted by
count descending. -/
def value_counts (l : List String) : List (String × Nat) :=
  List.insertionSort (fun a b => b.2 ≤ a.2)
    ((dropDuplicates l).map (fun v => (v, (l.filter (fun s => decide (s = v))).length)))

/-- `df['City'].value_counts().head(10)` from `basic_exploration` (source
lines 155-158). -/
def city_transactions (df : List Row) : List (String × Nat) :=
  (value_counts (df.filterMap Row.city)).take 10

/-- The percentage printed for a top-10 city: its count over the total
transaction count, times 100 (source line 157). -/
def cityPct (df : List Row) (count : Nat) : ℚ :=
  (count : ℚ) / (df.length : ℚ) * 100

/-- Python's `str.split(sep)` for a one-character separator, over the
character list: splitting the empty string yields one empty piece, and each
separator occurrence starts a new piece. -/
def splitOnChar (sep : Char) : List Char → List (List Char)
  | [] => [[]]
  | c :: cs =>
    match splitOnChar sep cs with
    | [] => if c = sep then [[], []] else [[c]]
    | h :: t => if c = sep then [] :: h :: t else (c :: h) :: t

/-- Whitespace as recognised by Python's `str.strip()` on the characters the
dataset can contain. -/
def isSpaceChar (c : Char) : Bool :=
  c = ' ' || c = '\t' || c = '\n' || c = '\r'

/-- Python's `item.strip()`: remove leading and trailing whitespace. -/
def pyStrip (s : String) : String :=
  String.mk (((s.data.dropWhile isSpaceChar).reverse.dropWhile isSpaceChar).reverse)

/-- The flattened product multiset of `basic_exploration` (source lines
138-142): each non-null Product cell is split on commas
(`products.split(',')`), every piece is stripped, and the pieces are
concatenated in row order. -/
def products_list (df : List Row) : List String :=
  (df.filterMap Row.product).flatMap
    (fun s => (splitOnChar ',' s.data).map (fun cs => pyStrip (String.mk cs)))

/-- `Counter(products_list)` as an ordered association list: the distinct
products in first-encountered order, each with its occurrence count. -/
def product_counts (df : List Row) : List (String × Nat) :=
  (dropDuplicates (products_list df)).map
    (fun v => (v, ((products_list df).filter (fun s => decide (s = v))).length))

/-- `pd.Series(product_counts).nlargest(5)` (source line 145): stable sort by
count descending — ties keep the order of the underlying Series, which is the
Counter's insertion order, i.e. first-encountered order — then take 5. -/
def top_5_products (df : List Row) : List (String × Nat) :=
  (List.insertionSort (fun a b => b.2 ≤ a.2) (product_counts df)).take 5

/-- `df.groupby(key)` with pandas defaults: rows whose key is null are
dropped, and there is one group per distinct observed key, holding the rows
equal to it. -/
def groupBy {κ : Type} [DecidableEq κ] (key : Row → Option κ) (rows : List Row) :
    List (κ × List Row) :=
  (dropDuplicates (rows.filterMap key)).map
    (fun v => (v, rows.filter (fun r => decide (key r = some v))))

/-- The mean of a list of rationals, pandas style: no value for an empty
list. -/
def mean (l : List ℚ) : Option ℚ :=
  if l.length = 0 then none else some (l.sum / l.length)

/-- Rounding of a rational to the nearest integer with ties to even, the
mode used by `DataFrame.round` (numpy rounding). -/
def roundHalfEven (q : ℚ) : ℤ :=
  let n := Int.fdiv q.num q.den
  let f := q - (n : ℚ)
  if f < 1 / 2 then n
  else if 1 / 2 < f then n + 1
  else if n % 2 = 0 then n else n + 1

/-- `.round(2)`: round to two decimal places, ties to even. -/
def round2 (q : ℚ) : ℚ :=
  (roundHalfEven (q * 100) : ℚ) / 100

/-- One row of the `spending_by_category` (or `promotion_analysis`) aggregate
table: `agg({'Total_Cost': ['mean', 'sum', 'count'], 'Total_Items': 'mean'})`
rounded to two decimals.  The pandas `count` aggregate counts the non-null
Total_Cost entries of the group, and `mean`/`sum` skip nulls. -/
structure CatAgg where
  key          : String
  avgCost      : Option ℚ
  totalRevenue : ℚ
  count        : Nat
  avgItems     : Option ℚ
deriving DecidableEq, Repr

/-- The aggregate record of one group. -/
def aggCat (g : String × List Row) : CatAgg :=
  let costs := g.2.filterMap Row.totalCost
  let items := g.2.filterMap Row.totalItems
  { key := g.1
    avgCost := (mean costs).map round2
    totalRevenue := round2 costs.sum
    count := costs.length
    avgItems := (mean items).map round2 }

/-- The comparison used by `sort_values('Avg Cost', ascending=False)`:
larger average cost first, null (NaN) averages last. -/
def avgCostLe (a b : CatAgg) : Bool :=
  match a.avgCost, b.avgCost with
  | some x, some y => decide (y ≤ x)
  | some _, none => true
  | none, some _ => false
  | none, none => true

/-- `spending_by_category` from `customer_behaviour_analysis` (source lines
196-203): group by Customer_Category, aggregate, sort by average cost
descending. -/
def spending_by_category (df : List Row) : List CatAgg :=
  List.insertionSort (fun a b => avgCostLe a b = true)
    ((groupBy Row.customerCategory df).map aggCat)

/-- `promotion_analysis` from `promotion_discount_analysis` (source lines
268-274): group by Promotion, aggregate, sort by average cost descending. -/
def promotion_analysis (df : List Row) : List CatAgg :=
  List.insertionSort (fun a b => avgCostLe a b = true)
    ((groupBy Row.promotion df).map aggCat)

/-- `Series.idxmax` over the 'Avg Cost' column of an aggregate table: the
key of the first row attaining the maximal non-null average; pandas raises
ValueError when there is no such row, modelled as an error value. -/
def idxmaxAvgCost (l : List CatAgg) : Except String String :=
  match l.filterMap (fun e => e.avgCost.map (fun v => (e.key, v))) with
  | [] => Except.error "attempt to get argmax of an empty sequence"
  | x :: rest => Except.ok (rest.foldl (fun best p => if best.2 < p.2 then p else best) x).1

/-- `max_spender` (source line 206): argmax of 'Avg Cost' over
`spending_by_category`. -/
def max_spender (df : List Row) : Except String String :=
  idxmaxAvgCost (spending_by_category df)

/-- `best_promo` (source line 277): argmax of 'Avg Cost' over
`promotion_analysis`. -/
def best_promo (df : List Row) : Except String String :=
  idxmaxAvgCost (promotion_analysis df)

/-- `discount_diff` (source lines 256-258): the percentage difference
`(a - b) / b * 100` between the mean cost of rows with Discount_Applied =
'Yes' and the mean cost of rows with Discount_Applied = 'No'.  When either
mean does not exist, or the division is by zero, the float computation is
not a finite number, modelled as `none`. -/
def discount_diff (df : List Row) : Option ℚ :=
  let with_discount :=
    mean ((df.filter (fun r => decide (r.discountApplied = some "Yes"))).filterMap Row.totalCost)
  let without_discount :=
    mean ((df.filter (fun r => decide (r.discountApplied = some "No"))).filterMap Row.totalCost)
  match with_discount, without_discount with
  | some a, some b => if b = 0 then none else some ((a - b) / b * 100)
  | _, _ => none

/-- The single-column grouping keys used by the Segmenter stage: customer
category, store type, discount flag, promotion type and season. -/
def segmenterSingleKeys : List (Row → Option String) :=
  [Row.customerCategory, Row.storeType, Row.discountApplied, Row.promotion, Row.season]

/-- The pair grouping key of `seasonality_analysis` (source line 312):
season and store type together; pandas drops a row when any key part is
null. -/
def seasonStoreKey (r : Row) : Option (String × String) :=
  match r.season, r.storeType with
  | some s, some t => some (s, t)
  | _, _ => none

/-- Table realising the spec's Segmenter example for claim C6: three rows
with costs 10, 20, 30 and customer categories A, A, B. -/
def c6Table : List Row :=
  [{ exRowA with customerName := some "r1", customerCategory := some "A", totalCost := some 10 },
   { exRowA with customerName := some "r2", customerCategory := some "A", totalCost := some 20 },
   { exRowA with customerName := some "r3", customerCategory := some "B", totalCost := some 30 }]

/-- Table realising the spec's discount example for claim C7: mean cost 18
with discount, 20 without. -/
def c7Table : List Row :=
  [{ exRowA with discountApplied := some "Yes", totalCost := some 18 },
   { exRowA with customerName := some "Bina", discountApplied := some "No", totalCost := some 20 }]

/-- Table realising the spec's product example for claim C9: a Product
column with values "x", "y", "x", "x". -/
def c9Table : List Row :=
  [{ exRowA with date := 1, product := some "x" },
   { exRowA with date := 2, product := some "y" },
   { exRowA with date := 3, product := some "x" },
   { exRowA with date := 4, product := some "x" }]

/-- A book record of the library script; availability is the string
'Available' or 'Issued'. -/
structure Book where
  title        : String
  author       : String
  genre        : String
  availability : String
deriving DecidableEq, Repr

/-- A member record of the library script. -/
structure Member where
  name    : String
  age     : Nat
  contact : String
deriving DecidableEq, Repr

/-- One entry of the borrow log. -/
structure LogEntry where
  member_id : Nat
  book_id   : Nat
  action    : String
  date      : String
deriving DecidableEq, Repr

/-- The global state of the library script: the `books`, `members` and
`member_borrowed_books` dictionaries (as association lists with unique keys
in insertion order) and the `borrow_log` list. -/
structure LibraryState where
  books                 : List (Nat × Book)
  members               : List (Nat × Member)
  member_borrowed_books : List (Nat × List Nat)
  borrow_log            : List LogEntry
deriving DecidableEq, Repr

/-- Dictionary lookup: the value at the first matching key, if any. -/
def dictGet {β : Type} (d : List (Nat × β)) (k : Nat) : Option β :=
  (d.find? (fun p => decide (p.1 = k))).map Prod.snd

/-- Dictionary update of an existing key: rewrite every pair holding the
key (a Python dict holds it at most once). -/
def dictUpdate {β : Type} (d : List (Nat × β)) (k : Nat) (v : β) : List (Nat × β) :=
  d.map (fun p => if p.1 = k then (k, v) else p)

/-- `borrow_book` (library source lines 194-238).  The checks run in source
order: unknown member, unknown book, and unavailable book each return
`false` and leave the state untouched.  Otherwise the book becomes Issued,
the book id is appended to the member's borrowed list, and a Borrowed entry
is appended to the log; `now` stands for `datetime.now()`.  A `none` result
models the KeyError raised when the member is present in `members` but
missing from `member_borrowed_books` (impossible in states built by the
script itself). -/
def borrow_book (s : LibraryState) (member_id book_id : Nat) (now : String) :
    Option (Bool × LibraryState) :=
  match dictGet s.members member_id with
  | none => some (false, s)
  | some _ =>
    match dictGet s.books book_id with
    | none => some (false, s)
    | some book =>
      if book.availability ≠ "Available" then some (false, s)
      else
        match dictGet s.member_borrowed_books member_id with
        | none => none
        | some borrowed =>
          some (true,
            { s with
              books := dictUpdate s.books book_id { book with availability := "Issued" }
              member_borrowed_books := dictUpdate s.member_borrowed_books member_id (borrowed ++ [book_id])
              borrow_log := s.borrow_log ++
                [{ member_id := member_id, book_id := book_id, action := "Borrowed", date := now }] })

/-- A concrete library state for the C10 witness: one available book and one
member with an empty borrowed list. -/
def exLib : LibraryState :=
  { books := [(1001, { title := "Dune", author := "Herbert", genre := "SciFi", availability := "Available" })]
    members := [(20013, { name := "Amit", age := 30, contact := "a at b" })]
    member_borrowed_books := [(20013, [])]
    borrow_log := [] }

instance : IsTotal (String × Nat) (fun a b => b.2 ≤ a.2) :=
  ⟨fun a b => Nat.le_total b.2 a.2⟩

instance : IsTrans (String × Nat) (fun a b => b.2 ≤ a.2) :=
  ⟨fun _ _ _ hab hbc => Nat.le_trans hbc hab⟩

theorem dropDupAux_sublist {α : Type} [DecidableEq α] (seen l : List α) :
    (dropDupAux seen l).Sublist l := by
  induction l generalizing seen with
  | nil => simp [dropDupAux]
  | cons r rs ih =>
    simp only [dropDupAux]
    split
    · exact (ih seen).cons r
    · exact (ih (r :: seen)).cons₂ r

theorem mem_dropDupAux {α : Type} [DecidableEq α] {x : α} (seen l : List α) :
    x ∈ dropDupAux seen l ↔ x ∈ l ∧ x ∉ seen := by
  induction l generalizing seen with
  | nil => simp [dropDupAux]
  | cons r rs ih =>
    simp only [dropDupAux]
    split
    · next hmem =>
      rw [ih]
      constructor
      · rintro ⟨h1, h2⟩
        exact ⟨List.mem_cons_of_mem r h1, h2⟩
      · rintro ⟨h1, h2⟩
        rcases List.mem_cons.mp h1 with h1 | h1
        · exact absurd (h1 ▸ hmem) h2
        · exact ⟨h1, h2⟩
    · next hmem =>
      simp only [List.mem_cons, ih (r :: seen), List.mem_cons]
      constructor
      · rintro (h1 | ⟨h1, h2⟩)
        · exact ⟨Or.inl h1, h1 ▸ hmem⟩
        · exact ⟨Or.inr h1, fun hc => h2 (Or.inr hc)⟩
      · rintro ⟨h1 | h1, h2⟩
        · exact Or.inl h1
        · by_cases hxr : x = r
          · exact Or.inl hxr
          · exact Or.inr ⟨h1, fun hc => hc.elim hxr h2⟩

theorem nodup_dropDupAux {α : Type} [DecidableEq α] (seen l : List α) :
    (dropDupAux seen l).Nodup := by
  induction l generalizing seen with
  | nil => simp [dropDupAux]
  | cons r rs ih =>
    simp only [dropDupAux]
    split
    · exact ih seen
    · refine List.nodup_cons.mpr ⟨?_, ih (r :: seen)⟩
      intro hmem
      exact ((mem_dropDupAux (r :: seen) rs).mp hmem).2 (List.mem_cons_self r seen)

theorem mem_dropDuplicates {α : Type} [DecidableEq α] {x : α} (l : List α) :
    x ∈ dropDuplicates l ↔ x ∈ l := by
  rw [dropDuplicates, mem_dropDupAux]
  simp

theorem nodup_dropDuplicates {α : Type} [DecidableEq α] (l : List α) :
    (dropDuplicates l).Nodup :=
  nodup_dropDupAux [] l

theorem dropDupAux_eq_specKeepFirst {α : Type} [DecidableEq α] (l : List α) :
    ∀ seen pre : List α, (∀ x, x ∈ seen ↔ x ∈ pre) →
      dropDupAux seen l = specKeepFirst pre l := by
  induction l with
  | nil => intro seen pre _; rfl
  | cons r rs ih =>
    intro seen pre h
    have hinv : ∀ x, x ∈ r :: seen ↔ x ∈ pre ++ [r] := by
      intro x
      simp [List.mem_cons, List.mem_append, h x]
      tauto
    simp only [dropDupAux, specKeepFirst]
    by_cases hm : r ∈ seen
    · rw [if_pos hm, if_pos ((h r).mp hm)]
      refine ih seen (pre ++ [r]) ?_
      intro x
      rw [List.mem_append]
      constructor
      · intro hx; exact Or.inl ((h x).mp hx)
      · rintro (hx | hx)
        · exact (h x).mpr hx
        · simp only [List.mem_singleton] at hx
          exact hx ▸ hm
    · rw [if_neg hm, if_neg (fun hc => hm ((h r).mpr hc))]
      exact congrArg (r :: ·) (ih (r :: seen) (pre ++ [r]) hinv)

/-- Claim C5: the Loader's deduplication removes a row exactly when a row
equal in all fields precedes it (`specDedup` is that description verbatim),
hence the row count can only shrink, and the reported duplicate count is
exactly the difference of the row counts before and after. -/
theorem c5_dedup_removes_preceded_rows (rows : List Row) :
    dropDuplicates rows = specDedup rows ∧
    (dropDuplicates rows).length ≤ rows.length ∧
    (load_and_prepare_data rows).duplicates = rows.length - (dropDuplicates rows).length :=
  ⟨dropDupAux_eq_specKeepFirst rows [] [] (fun _ => Iff.rfl),
   (dropDupAux_sublist [] rows).length_le, rfl⟩

theorem fillCol_eq {α : Type} (hasNull : α → Bool) (fill : α → α)
    (h : ∀ r, hasNull r = false → fill r = r) (rows : List α) :
    fillCol hasNull fill rows = rows.map fill := by
  unfold fillCol
  split
  · rfl
  · next hAny =>
    have hall : ∀ r ∈ rows, hasNull r = false := by
      intro r hr
      by_contra hb
      exact hAny (List.any_eq_true.mpr ⟨r, hr, by simpa using hb⟩)
    calc rows = rows.map id := (List.map_id rows).symm
      _ = rows.map fill := List.map_congr_left (fun r hr => (h r (hall r hr)).symm)

theorem fillCat_of_isSome {o : Option String} (h : o.isNone = false) : fillCat o = o := by
  cases o
  · simp at h
  · rfl

theorem fillNum_of_isSome {o m : Option ℚ} (h : o.isNone = false) : fillNum o m = o := by
  cases o
  · simp at h
  · rfl

theorem fillCustomerName_id (r : Row) (h : r.customerName.isNone = false) :
    fillCustomerName r = r := by
  unfold fillCustomerName
  rw [fillCat_of_isSome h]

theorem fillCustomerCategory_id (r : Row) (h : r.customerCategory.isNone = false) :
    fillCustomerCategory r = r := by
  unfold fillCustomerCategory
  rw [fillCat_of_isSome h]

theorem fillCity_id (r : Row) (h : r.city.isNone = false) : fillCity r = r := by
  unfold fillCity
  rw [fillCat_of_isSome h]

theorem fillStoreType_id (r : Row) (h : r.storeType.isNone = false) : fillStoreType r = r := by
  unfold fillStoreType
  rw [fillCat_of_isSome h]

theorem fillProduct_id (r : Row) (h : r.product.isNone = false) : fillProduct r = r := by
  unfold fillProduct
  rw [fillCat_of_isSome h]

theorem fillPaymentMethod_id (r : Row) (h : r.paymentMethod.isNone = false) :
    fillPaymentMethod r = r := by
  unfold fillPaymentMethod
  rw [fillCat_of_isSome h]

theorem fillDiscountApplied_id (r : Row) (h : r.discountApplied.isNone = false) :
    fillDiscountApplied r = r := by
  unfold fillDiscountApplied
  rw [fillCat_of_isSome h]

theorem fillPromotion_id (r : Row) (h : r.promotion.isNone = false) : fillPromotion r = r := by
  unfold fillPromotion
  rw [fillCat_of_isSome h]

theorem fillSeason_id (r : Row) (h : r.season.isNone = false) : fillSeason r = r := by
  unfold fillSeason
  rw [fillCat_of_isSome h]

theorem fillCategoricals_eq (rows : List Row) :
    fillCategoricals rows = rows.map catFill := by
  unfold fillCategoricals
  rw [fillCol_eq _ _ fillCustomerName_id,
      fillCol_eq _ _ fillCustomerCategory_id,
      fillCol_eq _ _ fillCity_id,
      fillCol_eq _ _ fillStoreType_id,
      fillCol_eq _ _ fillProduct_id,
      fillCol_eq _ _ fillPaymentMethod_id,
      fillCol_eq _ _ fillDiscountApplied_id,
      fillCol_eq _ _ fillPromotion_id,
      fillCol_eq _ _ fillSeason_id]
  simp only [List.map_map]
  rfl

theorem fillTotalCost_eq (rows : List Row) :
    fillTotalCost rows =
      rows.map (fun r => { r with totalCost := fillNum r.totalCost (median (rows.filterMap Row.totalCost)) }) := by
  unfold fillTotalCost
  refine fillCol_eq _ _ ?_ rows
  intro r h
  rw [fillNum_of_isSome h]

theorem fillTotalItems_eq (rows : List Row) :
    fillTotalItems rows =
      rows.map (fun r => { r with totalItems := fillNum r.totalItems (median (rows.filterMap Row.totalItems)) }) := by
  unfold fillTotalItems
  refine fillCol_eq _ _ ?_ rows
  intro r h
  rw [fillNum_of_isSome h]

theorem handleMissing_eq (rows : List Row) :
    handleMissing rows =
      rows.map (imputeRow (median (rows.filterMap Row.totalCost))
        (median (rows.filterMap Row.totalItems))) := by
  unfold handleMissing
  rw [fillCategoricals_eq, fillTotalCost_eq, List.filterMap_map, List.map_map,
      fillTotalItems_eq, List.filterMap_map, List.map_map]
  rfl

theorem median_isSome {l : List ℚ} (h : l ≠ []) : (median l).isSome = true := by
  unfold median
  have hlen : (List.insertionSort (· ≤ ·) l).length = l.length :=
    (List.perm_insertionSort (· ≤ ·) l).length_eq
  simp only [hlen]
  have hne : l.length ≠ 0 := fun hc => h (List.length_eq_zero.mp hc)
  rw [if_neg hne]
  split
  · rfl
  · rfl

theorem fillNum_isSome {o m : Option ℚ} (hm : m.isSome = true) :
    (fillNum o m).isSome = true := by
  cases o
  · simpa [fillNum] using hm
  · rfl

/-- Claim C1 (amended): in the Loader, every null in a text/category column
becomes "Unknown" and every null in a numeric column becomes that column's
median over its non-null values (when the column has at least one non-null
value; an all-null numeric column stays null), but these replacements take
effect only after the deduplication accounting: the reported duplicate count
is the row-count difference of the un-imputed table, and the imputation runs
on the deduplicated rows. -/
theorem c1_imputation_after_dedup_accounting (rows : List Row) :
    (load_and_prepare_data rows).duplicates = rows.length - (dropDuplicates rows).length ∧
    (load_and_prepare_data rows).cleaned =
      (dropDuplicates rows).map
        (imputeRow (median ((dropDuplicates rows).filterMap Row.totalCost))
          (median ((dropDuplicates rows).filterMap Row.totalItems))) := by
  refine ⟨rfl, ?_⟩
  simp only [load_and_prepare_data]
  exact handleMissing_eq (dropDuplicates rows)

/-- Counterexample to claim C1 as stated: on `c1Table` the Loader reports 0
duplicates, while a loader that imputes before the deduplication accounting
(`loaderImputeFirst`, the claim's ordering) reports 1, because the null cost
of the second row is imputed to the first row's cost, making the rows equal.
So the replacements do not take effect before the duplicate count is
computed. -/
theorem c1_counterexample :
    (load_and_prepare_data c1Table).duplicates = 0 ∧
    (loaderImputeFirst c1Table).duplicates = 1 ∧
    (load_and_prepare_data c1Table).duplicates ≠ (loaderImputeFirst c1Table).duplicates := by
  have h1 : (load_and_prepare_data c1Table).duplicates = 0 := by decide
  have h2 : (loaderImputeFirst c1Table).duplicates = 1 := by
    simp only [loaderImputeFirst, handleMissing_eq]
    decide
  exact ⟨h1, h2, by rw [h1, h2]; decide⟩

/-- Counterexample to claim C2 as stated: `c2Table` has a single row whose
Total_Cost is null, so the whole numeric column is null, the median of its
non-null values does not exist, `fillna` fills nothing, and the Loader's
output still contains a null numeric cell. -/
theorem c2_counterexample :
    noNulls (load_and_prepare_data c2Table).cleaned = false := by
  simp only [load_and_prepare_data]
  rw [handleMissing_eq]
  decide

/-- Claim C2 (amended): after the Loader stage no categorical column
contains a null, unconditionally; and, per column, a numeric column contains
no null provided that same column held at least one non-null value in the
input (a numeric column that is entirely null keeps its nulls, because the
median of no values is undefined and `fillna(NaN)` fills nothing). -/
theorem c2_no_nulls_after_loader (rows : List Row) :
    (∀ r ∈ (load_and_prepare_data rows).cleaned,
        r.customerName.isSome = true ∧ r.customerCategory.isSome = true ∧
        r.city.isSome = true ∧ r.storeType.isSome = true ∧
        r.product.isSome = true ∧ r.paymentMethod.isSome = true ∧
        r.discountApplied.isSome = true ∧ r.promotion.isSome = true ∧
        r.season.isSome = true) ∧
    ((∃ r ∈ rows, r.totalCost.isSome = true) →
        ∀ r ∈ (load_and_prepare_data rows).cleaned, r.totalCost.isSome = true) ∧
    ((∃ r ∈ rows, r.totalItems.isSome = true) →
        ∀ r ∈ (load_and_prepare_data rows).cleaned, r.totalItems.isSome = true) := by
  refine ⟨?_, ?_, ?_⟩
  · intro r hr
    simp only [load_and_prepare_data] at hr
    rw [handleMissing_eq] at hr
    obtain ⟨x, _, rfl⟩ := List.mem_map.mp hr
    exact ⟨rfl, rfl, rfl, rfl, rfl, rfl, rfl, rfl, rfl⟩
  · rintro ⟨rc, hrc, hrcs⟩ r hr
    obtain ⟨vc, hvc⟩ := Option.isSome_iff_exists.mp hrcs
    have hrcd : rc ∈ dropDuplicates rows := (mem_dropDuplicates rows).mpr hrc
    have hcostne : (dropDuplicates rows).filterMap Row.totalCost ≠ [] :=
      List.ne_nil_of_mem (List.mem_filterMap.mpr ⟨rc, hrcd, hvc⟩)
    have hcm := median_isSome hcostne
    simp only [load_and_prepare_data] at hr
    rw [handleMissing_eq] at hr
    obtain ⟨x, _, rfl⟩ := List.mem_map.mp hr
    exact fillNum_isSome hcm
  · rintro ⟨ri, hri, hris⟩ r hr
    obtain ⟨vi, hvi⟩ := Option.isSome_iff_exists.mp hris
    have hrid : ri ∈ dropDuplicates rows := (mem_dropDuplicates rows).mpr hri
    have hitemsne : (dropDuplicates rows).filterMap Row.totalItems ≠ [] :=
      List.ne_nil_of_mem (List.mem_filterMap.mpr ⟨ri, hrid, hvi⟩)
    have him := median_isSome hitemsne
    simp only [load_and_prepare_data] at hr
    rw [handleMissing_eq] at hr
    obtain ⟨x, _, rfl⟩ := List.mem_map.mp hr
    exact fillNum_isSome him

/-- Witness for the amended claim C2 at a concrete table: the categorical
clause instantiated at a concrete cleaned row, and each numeric clause with
its own proviso discharged. -/
theorem c2_no_nulls_after_loader_witness :
    (exRowA.customerName.isSome = true ∧ exRowA.customerCategory.isSome = true ∧
     exRowA.city.isSome = true ∧ exRowA.storeType.isSome = true ∧
     exRowA.product.isSome = true ∧ exRowA.paymentMethod.isSome = true ∧
     exRowA.discountApplied.isSome = true ∧ exRowA.promotion.isSome = true ∧
     exRowA.season.isSome = true) ∧
    (∀ r ∈ (load_and_prepare_data [exRowA]).cleaned, r.totalCost.isSome = true) ∧
    (∀ r ∈ (load_and_prepare_data [exRowA]).cleaned, r.totalItems.isSome = true) :=
  ⟨(c2_no_nulls_after_loader [exRowA]).1 exRowA
      (by simp only [load_and_prepare_data]; rw [handleMissing_eq]; decide),
   (c2_no_nulls_after_loader [exRowA]).2.1 (by decide),
   (c2_no_nulls_after_loader [exRowA]).2.2 (by decide)⟩

/-- Claim C3: when the aggregate table over which an argmax insight is
computed is empty (the grouping produced no groups), the Reporter surfaces
an explicit degenerate-aggregate error — the pandas ValueError raised by
`idxmax` on an empty sequence, modelled as `Except.error` — rather than
silently returning a default key, and the failure happens at the argmax, not
inside formatting code. -/
theorem c3_empty_aggregate_fails_explicitly (df : List Row) :
    (spending_by_category df = [] →
      max_spender df = Except.error "attempt to get argmax of an empty sequence") ∧
    (promotion_analysis df = [] →
      best_promo df = Except.error "attempt to get argmax of an empty sequence") := by
  constructor
  · intro h
    rw [max_spender, h]
    rfl
  · intro h
    rw [best_promo, h]
    rfl

/-- Witness for claim C3 at the empty dataset, whose aggregate tables are
empty. -/
theorem c3_empty_aggregate_fails_explicitly_witness :
    max_spender [] = Except.error "attempt to get argmax of an empty sequence" ∧
    best_promo [] = Except.error "attempt to get argmax of an empty sequence" :=
  ⟨(c3_empty_aggregate_fails_explicitly []).1 rfl,
   (c3_empty_aggregate_fails_explicitly []).2 rfl⟩

theorem sum_filter_lengths {α κ : Type} [DecidableEq κ] (key : α → Option κ) :
    ∀ (keys : List κ) (rows : List α), keys.Nodup →
      (∀ r ∈ rows, ∃ v ∈ keys, key r = some v) →
      (keys.map (fun v => (rows.filter (fun r => decide (key r = some v))).length)).sum
        = rows.length := by
  intro keys
  induction keys with
  | nil =>
    intro rows _ hcov
    cases rows with
    | nil => rfl
    | cons r rs =>
      obtain ⟨v, hv, _⟩ := hcov r (List.mem_cons_self r rs)
      exact absurd hv (List.not_mem_nil v)
  | cons v ks ih =>
    intro rows hnd hcov
    have hrest : ∀ r ∈ rows.filter (fun r => decide (¬ key r = some v)),
        ∃ w ∈ ks, key r = some w := by
      intro r hr
      obtain ⟨hrr, hne⟩ := List.mem_filter.mp hr
      obtain ⟨w, hw, hkw⟩ := hcov r hrr
      rcases List.mem_cons.mp hw with hw | hw
      · exact absurd hkw (by simpa [hw] using of_decide_eq_true hne)
      · exact ⟨w, hw, hkw⟩
    have hks : ∀ w ∈ ks,
        ((rows.filter (fun r => decide (¬ key r = some v))).filter
            (fun r => decide (key r = some w))).length
          = (rows.filter (fun r => decide (key r = some w))).length := by
      intro w hw
      have hwv : w ≠ v := fun hc => (List.nodup_cons.mp hnd).1 (hc ▸ hw)
      rw [List.filter_filter]
      congr 1
      refine List.filter_congr ?_
      intro r _
      by_cases hk : key r = some w
      · simp [hk, Option.some.injEq, hwv]
      · simp [hk]
    have hsplit :
        rows.length = (rows.filter (fun r => decide (key r = some v))).length
          + (rows.filter (fun r => decide (¬ key r = some v))).length := by
      rw [← List.countP_eq_length_filter, ← List.countP_eq_length_filter]
      simpa using List.length_eq_countP_add_countP (fun r => decide (key r = some v)) rows
    rw [List.map_cons, List.sum_cons, hsplit]
    congr 1
    rw [← ih (rows.filter (fun r => decide (¬ key r = some v))) (List.nodup_cons.mp hnd).2 hrest]
    exact (List.map_congr_left (fun w hw => (hks w hw).symm)) ▸ rfl

theorem sum_groupBy_lengths {κ : Type} [DecidableEq κ] (key : Row → Option κ)
    (rows : List Row) (h : ∀ r ∈ rows, (key r).isSome = true) :
    ((groupBy key rows).map (fun g => g.2.length)).sum = rows.length := by
  unfold groupBy
  rw [List.map_map]
  refine sum_filter_lengths key (dropDuplicates (rows.filterMap key)) rows
    (nodup_dropDuplicates _) ?_
  intro r hr
  obtain ⟨v, hv⟩ := Option.isSome_iff_exists.mp (h r hr)
  exact ⟨v, (mem_dropDuplicates _).mpr (List.mem_filterMap.mpr ⟨r, hr, hv⟩), hv⟩

theorem cleaned_cats_isSome (rows : List Row) :
    ∀ r ∈ (load_and_prepare_data rows).cleaned,
      r.customerCategory.isSome = true ∧ r.storeType.isSome = true ∧
      r.discountApplied.isSome = true ∧ r.promotion.isSome = true ∧
      r.season.isSome = true := by
  intro r hr
  simp only [load_and_prepare_data] at hr
  rw [handleMissing_eq] at hr
  obtain ⟨x, _, rfl⟩ := List.mem_map.mp hr
  exact ⟨rfl, rfl, rfl, rfl, rfl⟩

/-- Claim C4: for every input dataset and every grouping key used by the
Segmenter (each single categorical key, and the season-and-store-type pair
key), the per-group row counts over the partitions of the cleaned dataset
sum to its total row count — every cleaned row lands in exactly one
partition, because the Loader has already replaced every null key with
"Unknown". -/
theorem c4_partition_completeness (rows : List Row) :
    (∀ key ∈ segmenterSingleKeys,
      ((groupBy key (load_and_prepare_data rows).cleaned).map (fun g => g.2.length)).sum
        = (load_and_prepare_data rows).cleaned.length) ∧
    ((groupBy seasonStoreKey (load_and_prepare_data rows).cleaned).map (fun g => g.2.length)).sum
      = (load_and_prepare_data rows).cleaned.length := by
  have hc := cleaned_cats_isSome rows
  constructor
  · intro key hkey
    refine sum_groupBy_lengths key _ ?_
    intro r hr
    have := hc r hr
    simp only [segmenterSingleKeys, List.mem_cons, List.not_mem_nil, or_false] at hkey
    rcases hkey with rfl | rfl | rfl | rfl | rfl
    · exact this.1
    · exact this.2.1
    · exact this.2.2.1
    · exact this.2.2.2.1
    · exact this.2.2.2.2
  · refine sum_groupBy_lengths seasonStoreKey _ ?_
    intro r hr
    obtain ⟨-, hst, -, -, hse⟩ := hc r hr
    obtain ⟨s, hs⟩ := Option.isSome_iff_exists.mp hse
    obtain ⟨t, ht⟩ := Option.isSome_iff_exists.mp hst
    simp [seasonStoreKey, hs, ht]

/-- Witness for claim C4: the customer-category grouping of a concrete
cleaned table partitions all of its rows. -/
theorem c4_partition_completeness_witness :
    ((groupBy Row.customerCategory (load_and_prepare_data c6Table).cleaned).map
      (fun g => g.2.length)).sum = (load_and_prepare_data c6Table).cleaned.length :=
  (c4_partition_completeness c6Table).1 Row.customerCategory
    (by simp [segmenterSingleKeys])

/-- Claim C7: the reported discount impact is the percentage difference
`(a - b) / b * 100` between the mean cost over rows with Discount_Applied =
'Yes' and the mean cost over rows with Discount_Applied = 'No'; on the
spec's example (discounted mean 18, non-discounted mean 20) it is -10. -/
theorem c7_discount_diff_formula :
    (∀ (df : List Row) (a b : ℚ),
      mean ((df.filter (fun r => decide (r.discountApplied = some "Yes"))).filterMap Row.totalCost)
        = some a →
      mean ((df.filter (fun r => decide (r.discountApplied = some "No"))).filterMap Row.totalCost)
        = some b →
      b ≠ 0 →
      discount_diff df = some ((a - b) / b * 100)) ∧
    discount_diff c7Table = some (-10) := by
  constructor
  · intro df a b ha hb hb0
    rw [discount_diff, ha, hb]
    simp [hb0]
  · with_unfolding_all decide

/-- Witness for the general clause of claim C7 at the example table, whose
subset means are 18 and 20. -/
theorem c7_discount_diff_formula_witness :
    discount_diff c7Table = some ((18 - 20) / 20 * 100) :=
  c7_discount_diff_formula.1 c7Table 18 20 (by with_unfolding_all decide)
    (by with_unfolding_all decide) (by norm_num)

theorem sum_take_le (l : List Nat) (n : Nat) : (l.take n).sum ≤ l.sum := by
  conv_rhs => rw [← List.take_append_drop n l]
  rw [List.sum_append]
  exact Nat.le_add_right _ _

theorem value_counts_sum (l : List String) :
    ((value_counts l).map Prod.snd).sum = l.length := by
  have hperm : List.Perm (value_counts l)
      ((dropDuplicates l).map (fun v => (v, (l.filter (fun s => decide (s = v))).length))) :=
    List.perm_insertionSort _ _
  rw [(hperm.map Prod.snd).sum_eq, List.map_map]
  have hfun : ∀ v ∈ dropDuplicates l,
      (Prod.snd ∘ fun v => (v, (l.filter (fun s => decide (s = v))).length)) v
        = (fun v => (l.filter (fun s => decide ((some s : Option String) = some v))).length) v := by
    intro v _
    simp only [Function.comp]
    congr 1
    refine List.filter_congr ?_
    intro s _
    simp
  rw [List.map_congr_left hfun]
  refine sum_filter_lengths (fun s => (some s : Option String)) (dropDuplicates l) l
    (nodup_dropDuplicates l) ?_
  intro s hs
  exact ⟨s, (mem_dropDuplicates l).mpr hs, rfl⟩

/-- Claim C8: the Explorer's top-10-by-frequency city listing has counts
(hence percentages of the total row count) monotonically non-increasing in
the returned order, and its percentages sum to at most 100. -/
theorem c8_top10_percentages (df : List Row) :
    List.Sorted (fun a b : Nat => b ≤ a) ((city_transactions df).map Prod.snd) ∧
    ((city_transactions df).map (fun p => cityPct df p.2)).sum ≤ 100 := by
  constructor
  · have hs : List.Sorted (fun a b : String × Nat => b.2 ≤ a.2) (value_counts (df.filterMap Row.city)) :=
      List.sorted_insertionSort _ _
    have ht : List.Sorted (fun a b : String × Nat => b.2 ≤ a.2) (city_transactions df) :=
      List.Pairwise.sublist (List.take_sublist 10 _) hs
    exact List.pairwise_map.mpr ht
  · rcases Nat.eq_zero_or_pos df.length with hT | hT
    · have hdf : df = [] := List.length_eq_zero.mp hT
      subst hdf
      simp [city_transactions, value_counts, dropDuplicates, dropDupAux]
    · have hT0 : (df.length : ℚ) ≠ 0 := by positivity
      have hstep : ((city_transactions df).map (fun p => cityPct df p.2)).sum
          = ((((city_transactions df).map Prod.snd).sum : Nat) : ℚ) * (100 / (df.length : ℚ)) := by
        rw [List.map_congr_left (l := city_transactions df)
          (g := fun p : String × Nat => ((p.2 : ℚ)) * (100 / (df.length : ℚ)))
          (fun p _ => by rw [cityPct]; ring)]
        rw [List.sum_map_mul_right]
        congr 1
        rw [Nat.cast_list_sum, List.map_map]
        rfl
      have hle : ((city_transactions df).map Prod.snd).sum ≤ df.length := by
        calc ((city_transactions df).map Prod.snd).sum
            ≤ ((value_counts (df.filterMap Row.city)).map Prod.snd).sum := by
              rw [city_transactions, List.map_take]
              exact sum_take_le _ 10
          _ = (df.filterMap Row.city).length := value_counts_sum _
          _ ≤ df.length := List.length_filterMap_le _ _
      rw [hstep]
      calc ((((city_transactions df).map Prod.snd).sum : Nat) : ℚ) * (100 / (df.length : ℚ))
          ≤ ((df.length : Nat) : ℚ) * (100 / (df.length : ℚ)) := by
            refine mul_le_mul_of_nonneg_right ?_ (by positivity)
            exact_mod_cast hle
        _ = 100 := by
            rw [mul_comm]
            exact div_mul_cancel₀ 100 hT0

theorem filter_orderedInsert_of_eq {c : Nat} (x : String × Nat) (s : List (String × Nat))
    (hs : List.Sorted (fun a b : String × Nat => b.2 ≤ a.2) s) (hx : x.2 = c) :
    (List.orderedInsert (fun a b => b.2 ≤ a.2) x s).filter (fun p => decide (p.2 = c))
      = x :: s.filter (fun p => decide (p.2 = c)) := by
  induction s with
  | nil => simp [List.orderedInsert, hx]
  | cons y ys ih =>
    simp only [List.orderedInsert]
    split
    · next hr => simp [List.filter_cons, hx]
    · next hr =>
      have hy : ¬ y.2 = c := fun hc => hr (by rw [hc, hx])
      rw [List.filter_cons, List.filter_cons]
      simp [hy, ih hs.of_cons]

theorem filter_orderedInsert_of_ne {c : Nat} (x : String × Nat) (s : List (String × Nat))
    (hx : ¬ x.2 = c) :
    (List.orderedInsert (fun a b => b.2 ≤ a.2) x s).filter (fun p => decide (p.2 = c))
      = s.filter (fun p => decide (p.2 = c)) := by
  induction s with
  | nil => simp [List.orderedInsert, hx]
  | cons y ys ih =>
    simp only [List.orderedInsert]
    split
    · next hr => simp [List.filter_cons, hx]
    · next hr =>
      rw [List.filter_cons, List.filter_cons]
      simp [ih]

theorem filter_insertionSort_eq (l : List (String × Nat)) (c : Nat) :
    (List.insertionSort (fun a b => b.2 ≤ a.2) l).filter (fun p => decide (p.2 = c))
      = l.filter (fun p => decide (p.2 = c)) := by
  induction l with
  | nil => rfl
  | cons x xs ih =>
    simp only [List.insertionSort]
    by_cases hx : x.2 = c
    · rw [filter_orderedInsert_of_eq x _ (List.sorted_insertionSort _ xs) hx, ih,
          List.filter_cons]
      simp [hx]
    · rw [filter_orderedInsert_of_ne x _ hx, ih, List.filter_cons]
      simp [hx]

/-- Claim C9: the top-5 products are computed by splitting each Product cell
on commas, stripping, flattening into a multiset, counting, and taking the 5
most frequent; the sort by count is stable over `product_counts`, whose keys
are in first-encountered order, so ties between equal counts keep
first-encountered order (third conjunct: entries of any fixed count come out
exactly in their `product_counts` order); on the spec's example column
["x","y","x","x"], the top-1 value is "x" with 3 of the 4 flattened entries,
i.e. 75.0 percent. -/
theorem c9_top5_products :
    (top_5_products c9Table = [("x", 3), ("y", 1)] ∧
     (top_5_products c9Table).head? = some ("x", 3) ∧
     (3 : ℚ) / ((products_list c9Table).length : ℚ) * 100 = 75) ∧
    (∀ df : List Row,
      List.Sorted (fun a b : Nat => b ≤ a) ((top_5_products df).map Prod.snd)) ∧
    (∀ (df : List Row) (c : Nat),
      (List.insertionSort (fun a b => b.2 ≤ a.2) (product_counts df)).filter
          (fun p => decide (p.2 = c))
        = (product_counts df).filter (fun p => decide (p.2 = c))) := by
  refine ⟨⟨by decide, by decide, by with_unfolding_all decide⟩, ?_, ?_⟩
  · intro df
    have hs := List.sorted_insertionSort (fun a b : String × Nat => b.2 ≤ a.2)
      (product_counts df)
    exact List.pairwise_map.mpr (List.Pairwise.sublist (List.take_sublist 5 _) hs)
  · intro df c
    exact filter_insertionSort_eq _ _

theorem dictGet_dictUpdate_self {β : Type} (d : List (Nat × β)) (k : Nat) (v w : β)
    (h : dictGet d k = some v) : dictGet (dictUpdate d k w) k = some w := by
  induction d with
  | nil => simp [dictGet] at h
  | cons p ps ih =>
    by_cases hk : p.1 = k
    · simp [dictGet, dictUpdate, List.find?, hk]
    · simp only [dictGet, dictUpdate, List.map_cons, List.find?] at h ⊢
      rw [decide_eq_false hk] at h
      simp only [if_neg hk]
      rw [decide_eq_false hk]
      exact ih h

/-- Claim C10: `borrow_book` returns true exactly when the member exists,
the book exists, and the book is 'Available'; on failure the four state
components are untouched; on success the book becomes 'Issued', the book id
is appended to the member's borrowed list, and one 'Borrowed' entry is
appended to the log.  The hypothesis is the script's own invariant that a
registered member has an entry in `member_borrowed_books` (established by
`add_member`); without it the source raises a KeyError. -/
theorem c10_borrow_book (s : LibraryState) (member_id book_id : Nat) (now : String)
    (h : (dictGet s.members member_id).isSome = true →
      (dictGet s.member_borrowed_books member_id).isSome = true) :
    ∃ res : Bool × LibraryState,
      borrow_book s member_id book_id now = some res ∧
      (res.1 = true ↔
        (dictGet s.members member_id).isSome = true ∧
        ∃ b, dictGet s.books book_id = some b ∧ b.availability = "Available") ∧
      (res.1 = false → res.2 = s) ∧
      (res.1 = true →
        ∃ b borrowed,
          dictGet s.books book_id = some b ∧ b.availability = "Available" ∧
          dictGet s.member_borrowed_books member_id = some borrowed ∧
          res.2 = { s with
            books := dictUpdate s.books book_id { b with availability := "Issued" }
            member_borrowed_books :=
              dictUpdate s.member_borrowed_books member_id (borrowed ++ [book_id])
            borrow_log := s.borrow_log ++
              [{ member_id := member_id, book_id := book_id, action := "Borrowed", date := now }] } ∧
          dictGet res.2.books book_id = some { b with availability := "Issued" } ∧
          dictGet res.2.member_borrowed_books member_id = some (borrowed ++ [book_id]) ∧
          res.2.borrow_log = s.borrow_log ++
            [{ member_id := member_id, book_id := book_id, action := "Borrowed", date := now }]) := by
  cases hm : dictGet s.members member_id with
  | none =>
    refine ⟨(false, s), ?_, ?_, fun _ => rfl, ?_⟩
    · simp [borrow_book, hm]
    · simp [hm]
    · intro hc
      exact absurd hc (by simp)
  | some m =>
    cases hb : dictGet s.books book_id with
    | none =>
      refine ⟨(false, s), ?_, ?_, fun _ => rfl, ?_⟩
      · simp [borrow_book, hm, hb]
      · simp [hm, hb]
      · intro hc
        exact absurd hc (by simp)
    | some book =>
      by_cases hav : book.availability = "Available"
      · have hbors : (dictGet s.member_borrowed_books member_id).isSome = true :=
          h (by simp [hm])
        obtain ⟨borrowed, hbor⟩ := Option.isSome_iff_exists.mp hbors
        refine ⟨(true, { s with
            books := dictUpdate s.books book_id { book with availability := "Issued" }
            member_borrowed_books :=
              dictUpdate s.member_borrowed_books member_id (borrowed ++ [book_id])
            borrow_log := s.borrow_log ++
              [{ member_id := member_id, book_id := book_id, action := "Borrowed", date := now }] }),
          ?_, ?_, ?_, ?_⟩
        · simp [borrow_book, hm, hb, hav, hbor]
        · simp [hm, hb, hav]
        · intro hc
          exact absurd hc (by simp)
        · intro _
          exact ⟨book, borrowed, rfl, hav, hbor, rfl,
            dictGet_dictUpdate_self s.books book_id book _ hb,
            dictGet_dictUpdate_self s.member_borrowed_books member_id borrowed _ hbor, rfl⟩
      · refine ⟨(false, s), ?_, ?_, fun _ => rfl, ?_⟩
        · simp [borrow_book, hm, hb, hav]
        · constructor
          · intro hc
            exact absurd hc (by simp)
          · rintro ⟨-, b, hbb, hbav⟩
            injection hbb with hbb
            exact absurd (hbb ▸ hbav) hav
        · intro hc
          exact absurd hc (by simp)

/-- Witness for claim C10 at a concrete library state with one available
book and one registered member. -/
theorem c10_borrow_book_witness :
    ∃ res : Bool × LibraryState,
      borrow_book exLib 20013 1001 "2025-11-29 10:00:00" = some res ∧
      (res.1 = true ↔
        (dictGet exLib.members 20013).isSome = true ∧
        ∃ b, dictGet exLib.books 1001 = some b ∧ b.availability = "Available") ∧
      (res.1 = false → res.2 = exLib) ∧
      (res.1 = true →
        ∃ b borrowed,
          dictGet exLib.books 1001 = some b ∧ b.availability = "Available" ∧
          dictGet exLib.member_borrowed_books 20013 = some borrowed ∧
          res.2 = { exLib with
            books := dictUpdate exLib.books 1001 { b with availability := "Issued" }
            member_borrowed_books :=
              dictUpdate exLib.member_borrowed_books 20013 (borrowed ++ [1001])
            borrow_log := exLib.borrow_log ++
              [{ member_id := 20013, book_id := 1001, action := "Borrowed",
                 date := "2025-11-29 10:00:00" }] } ∧
          dictGet res.2.books 1001 = some { b with availability := "Issued" } ∧
          dictGet res.2.member_borrowed_books 20013 = some (borrowed ++ [1001]) ∧
          res.2.borrow_log = exLib.borrow_log ++
            [{ member_id := 20013, book_id := 1001, action := "Borrowed",
               date := "2025-11-29 10:00:00" }]) :=
  c10_borrow_book exLib 20013 1001 "2025-11-29 10:00:00" (by decide)
